import Mathlib

/-!
Verification of the audio-backbone module family in
`src/muscall/modules/audio_backbones.py`.

The Python file defines five encoder classes (ModifiedResNet, AudioCNN,
AudioEfficientNet, AudioTransformer, AudioAutoEncoder) plus the helper
modules AttentionPool2d, Bottleneck and PositionalEncoding.  We embed the
code at two complementary levels:

* a symbolic value model: tensors are terms of an inductive type `T`
  whose constructors are exactly the tensor operations applied by the
  source (the mel-spectrogram transform, convolutions, batch norms,
  linear layers, reshapes, the residual additions, ...), each carrying
  the construction arguments the source passes to the corresponding
  `torch` / `torchaudio` module.  Each `forward` method becomes a Lean
  function building such a term, following the source line by line.
  Random noise (`torch.randn_like`) is made an explicit argument.

* a shape model: a tensor shape is a `List Nat` of dimension sizes and
  every operation becomes a partial function `Shape → Option Shape`
  (`none` = the operation raises at that input shape), using the usual
  torch shape rules (conv output size `(d + 2p - k) / s + 1`, broadcast
  of the positional embedding, `reshape` divisibility, `squeeze`
  dropping all size-one axes, ...).  The two `print` calls of
  `PositionalEncoding.forward` are modelled by threading a `List String`
  log through the transformer pipeline.

Module construction (`__init__`) is embedded by plain records holding
the arguments each layer is constructed with (`Conv2dArgs`,
`BottleneckM`, `MelSetup`, ...), so that architecture claims (block
counts, widths, strides, the downsample condition) are statements about
those records.
-/

/-- Arguments of `torchaudio.transforms.MelSpectrogram` as passed by this
file (sample_rate, n_fft, f_min, f_max, n_mels, power, normalized). -/
structure MelSpectrogramArgs where
  sample_rate : Nat
  n_fft : Nat
  f_min : Nat
  f_max : Nat
  n_mels : Nat
  power : Nat
  normalized : Bool
deriving DecidableEq

/-- Arguments of `torchaudio.transforms.AmplitudeToDB` as passed here. -/
structure AmplitudeToDBArgs where
  top_db : Nat
deriving DecidableEq

/-- The pair of transforms a `setup_mel_spectrogram` method installs on
`self` (`self.spec` and `self.amplitude_to_db`). -/
structure MelSetup where
  spec : MelSpectrogramArgs
  amplitude_to_db : AmplitudeToDBArgs
deriving DecidableEq

/-- The configuration object handed to every backbone class.  Fields read
by attribute access (`config.sample_rate`, `config.pooling`, ...) are
plain fields; `AudioTransformer` and `AudioAutoEncoder` additionally read
keys through `config.get(key, default)`, modelled by an association
list. -/
structure Config where
  sample_rate : Nat
  n_fft : Nat
  f_min : Nat
  f_max : Nat
  n_mels : Nat
  pooling : String
  conv_out_channels : Nat
  hidden_size : Nat
  audio_len_seconds : Nat
  dict : List (String × Nat)
deriving DecidableEq

/-- `config.get(key, default)`: dictionary lookup with a default. -/
def Config.get (c : Config) (key : String) (d : Nat) : Nat :=
  (c.dict.lookup key).getD d

/-- The string key `hidden_size` used by `config.get`. -/
def hiddenSizeKey : String := "hidden_size"

/-- The string key `num_layers` used by `config.get`. -/
def numLayersKey : String := "num_layers"

/-- The string key `num_heads` used by `config.get`. -/
def numHeadsKey : String := "num_heads"

/-- The string key `dim_feedforward` used by `config.get`. -/
def dimFeedforwardKey : String := "dim_feedforward"

/-- The string key `output_size` used by `config.get`. -/
def outputSizeKey : String := "output_size"

/-- The string key `latent_dim` used by `config.get`. -/
def latentDimKey : String := "latent_dim"

/-- `AudioCNN.setup_mel_spectrogram` (lines 264-274): a MelSpectrogram on
the config's mel parameters with `power=2, normalized=True`, and an
`AmplitudeToDB(top_db=100)`. -/
def AudioCNN.setup_mel_spectrogram (config : Config) : MelSetup :=
  { spec := { sample_rate := config.sample_rate, n_fft := config.n_fft,
              f_min := config.f_min, f_max := config.f_max,
              n_mels := config.n_mels, power := 2, normalized := true },
    amplitude_to_db := { top_db := 100 } }

/-- `AudioEfficientNet.setup_mel_spectrogram` (lines 302-312). -/
def AudioEfficientNet.setup_mel_spectrogram (config : Config) : MelSetup :=
  { spec := { sample_rate := config.sample_rate, n_fft := config.n_fft,
              f_min := config.f_min, f_max := config.f_max,
              n_mels := config.n_mels, power := 2, normalized := true },
    amplitude_to_db := { top_db := 100 } }

/-- `AudioTransformer.setup_mel_spectrogram` (lines 347-357). -/
def AudioTransformer.setup_mel_spectrogram (config : Config) : MelSetup :=
  { spec := { sample_rate := config.sample_rate, n_fft := config.n_fft,
              f_min := config.f_min, f_max := config.f_max,
              n_mels := config.n_mels, power := 2, normalized := true },
    amplitude_to_db := { top_db := 100 } }

/-- `AudioAutoEncoder.setup_mel_spectrogram` (lines 413-423). -/
def AudioAutoEncoder.setup_mel_spectrogram (config : Config) : MelSetup :=
  { spec := { sample_rate := config.sample_rate, n_fft := config.n_fft,
              f_min := config.f_min, f_max := config.f_max,
              n_mels := config.n_mels, power := 2, normalized := true },
    amplitude_to_db := { top_db := 100 } }

/-- The inline construction of `self.spec` / `self.amplitude_to_db` in
`ModifiedResNet.__init__` (lines 146-155): same arguments as the four
`setup_mel_spectrogram` methods. -/
def ModifiedResNet.mel_setup (config : Config) : MelSetup :=
  { spec := { sample_rate := config.sample_rate, n_fft := config.n_fft,
              f_min := config.f_min, f_max := config.f_max,
              n_mels := config.n_mels, power := 2, normalized := true },
    amplitude_to_db := { top_db := 100 } }

/-- Construction arguments of an `nn.Conv2d` as used in this file
(square kernels only). -/
structure Conv2dArgs where
  in_channels : Nat
  out_channels : Nat
  kernel_size : Nat
  stride : Nat
  padding : Nat
  bias : Bool
deriving DecidableEq

/-- Symbolic tensor expressions: one constructor per tensor operation the
source applies, carrying the arguments the corresponding module was
constructed with.  Learned layers are `conv2d`, `batchNorm2d`, `linear`
(tagged with a per-layer id since distinct layers may share sizes),
`transformerEncoder`, `efficientNet` and `attnPool`; everything else is
parameter-free.  `noise n` is a sample of `torch.randn_like`, made
explicit. -/
inductive T where
  | input
  | noise (n : Nat)
  | melSpec (args : MelSpectrogramArgs) (t : T)
  | ampToDB (args : AmplitudeToDBArgs) (t : T)
  | unsqueeze (dim : Nat) (t : T)
  | typeCast (t : T)
  | conv2d (args : Conv2dArgs) (t : T)
  | batchNorm2d (num_features : Nat) (t : T)
  | relu (t : T)
  | avgPool2d (kernel : Nat) (t : T)
  | adaptiveAvgPool2d (outH outW : Nat) (t : T)
  | linear (id : Nat) (in_features out_features : Nat) (t : T)
  | flatten (start_dim : Nat) (t : T)
  | reshapeFlat (t : T)
  | reshapeSeq (d_model : Nat) (t : T)
  | meanDim (dim : Nat) (t : T)
  | squeeze (t : T)
  | add (a b : T)
  | mul (a b : T)
  | texp (t : T)
  | halfMul (t : T)
  | dropout (t : T)
  | peSlice (t : T)
  | transformerEncoder (num_layers nhead dim_feedforward : Nat) (t : T)
  | efficientNet (hidden_size : Nat) (t : T)
  | attnPool (spacial_dim embed_dim num_heads output_dim : Nat) (t : T)
deriving DecidableEq

/-- `Bottleneck.expansion` (class attribute, value 4). -/
def Bottleneck.expansion : Nat := 4

/-- The downsample branch of a `Bottleneck`, when created: an
`AvgPool2d(stride)`, a 1x1 stride-1 convolution, and a batch norm
(lines 89-108). -/
structure DownsampleM where
  pool : Nat
  conv : Conv2dArgs
  bn : Nat
deriving DecidableEq

/-- A constructed `Bottleneck(inplanes, planes, stride)` module: the
layers built by `Bottleneck.__init__` (lines 70-108) together with the
constructor arguments. -/
structure BottleneckM where
  inplanes : Nat
  planes : Nat
  stride : Nat
  conv1 : Conv2dArgs
  bn1 : Nat
  conv2 : Conv2dArgs
  bn2 : Nat
  avgpool : Option Nat
  conv3 : Conv2dArgs
  bn3 : Nat
  downsample : Option DownsampleM
deriving DecidableEq

/-- `Bottleneck.__init__` (lines 70-108): 1x1 conv, 3x3 conv (padding 1),
an `AvgPool2d(stride)` when `stride > 1` else identity, a 1x1 conv to
`planes * expansion` channels, and a downsample branch created exactly
when `stride > 1 or inplanes != planes * Bottleneck.expansion`. -/
def Bottleneck.mkM (inplanes planes stride : Nat) : BottleneckM :=
  { inplanes := inplanes, planes := planes, stride := stride,
    conv1 := { in_channels := inplanes, out_channels := planes,
               kernel_size := 1, stride := 1, padding := 0, bias := false },
    bn1 := planes,
    conv2 := { in_channels := planes, out_channels := planes,
               kernel_size := 3, stride := 1, padding := 1, bias := false },
    bn2 := planes,
    avgpool := if 1 < stride then some stride else none,
    conv3 := { in_channels := planes, out_channels := planes * Bottleneck.expansion,
               kernel_size := 1, stride := 1, padding := 0, bias := false },
    bn3 := planes * Bottleneck.expansion,
    downsample :=
      if 1 < stride ∨ inplanes ≠ planes * Bottleneck.expansion then
        some { pool := stride,
               conv := { in_channels := inplanes,
                         out_channels := planes * Bottleneck.expansion,
                         kernel_size := 1, stride := 1, padding := 0, bias := false },
               bn := planes * Bottleneck.expansion }
      else none }

/-- `Bottleneck.forward` (lines 110-123) in the value model:
conv1-bn1-relu, conv2-bn2-relu, the avgpool, conv3-bn3; the identity is
the raw input unless `downsample` exists, in which case it is
avgpool-conv-bn of the input; ReLU of the sum is returned. -/
def BottleneckM.forwardV (b : BottleneckM) (x : T) : T :=
  let out := T.relu (T.batchNorm2d b.bn1 (T.conv2d b.conv1 x))
  let out := T.relu (T.batchNorm2d b.bn2 (T.conv2d b.conv2 out))
  let out := match b.avgpool with
    | some k => T.avgPool2d k out
    | none => out
  let out := T.batchNorm2d b.bn3 (T.conv2d b.conv3 out)
  let identity := match b.downsample with
    | none => x
    | some d => T.batchNorm2d d.bn (T.conv2d d.conv (T.avgPool2d d.pool x))
  T.relu (T.add out identity)

/-- `ModifiedResNet._make_layer(planes, blocks, stride)` (lines 202-209):
the first block takes the running `_inplanes` and the given stride,
`_inplanes` becomes `planes * expansion`, and the remaining `blocks - 1`
blocks take the new `_inplanes` with stride 1.  Returns the block list
and the updated `_inplanes`. -/
def ModifiedResNet.make_layer (inplanes planes blocks stride : Nat) :
    List BottleneckM × Nat :=
  let first := [Bottleneck.mkM inplanes planes stride]
  let inplanes2 := planes * Bottleneck.expansion
  (first ++ (List.range (blocks - 1)).map (fun _ => Bottleneck.mkM inplanes2 planes 1),
   inplanes2)

/-- The four residual stages built by `ModifiedResNet.__init__`
(lines 184-188): `layers = (3, 4, 6, 3)`, `width = conv_out_channels`,
stages at planes `width, width*2, width*4, width*8` with strides
`1, 2, 2, 2`, threading `_inplanes`. -/
def ModifiedResNet.layersM (c : Config) :
    List BottleneckM × List BottleneckM × List BottleneckM × List BottleneckM :=
  let width := c.conv_out_channels
  let p1 := ModifiedResNet.make_layer width width 3 1
  let p2 := ModifiedResNet.make_layer p1.2 (width * 2) 4 2
  let p3 := ModifiedResNet.make_layer p2.2 (width * 4) 6 2
  let p4 := ModifiedResNet.make_layer p3.2 (width * 8) 3 2
  (p1.1, p2.1, p3.1, p4.1)

/-- Applying an `nn.Sequential` of Bottleneck blocks to a tensor. -/
def applyBlocks (bs : List BottleneckM) (x : T) : T :=
  bs.foldl (fun a b => BottleneckM.forwardV b a) x

/-- The three stem convolutions of `ModifiedResNet.__init__`
(lines 167-178) paired with their batch-norm widths: `conv1` maps 1
channel to `width // 2` with stride 2, `conv2` keeps `width // 2`,
`conv3` maps to `width`; all 3x3, padding 1, no bias. -/
def ModifiedResNet.stem_pairs (c : Config) : List (Conv2dArgs × Nat) :=
  let width := c.conv_out_channels
  [({ in_channels := 1, out_channels := width / 2, kernel_size := 3,
      stride := 2, padding := 1, bias := false }, width / 2),
   ({ in_channels := width / 2, out_channels := width / 2, kernel_size := 3,
      stride := 1, padding := 1, bias := false }, width / 2),
   ({ in_channels := width / 2, out_channels := width, kernel_size := 3,
      stride := 1, padding := 1, bias := false }, width)]

/-- The local `stem` function of `ModifiedResNet.forward` (lines 216-224):
fold relu-bn-conv over the three (conv, bn) pairs, then `AvgPool2d(2)`. -/
def ModifiedResNet.stemV (c : Config) (x : T) : T :=
  T.avgPool2d 2 ((ModifiedResNet.stem_pairs c).foldl
    (fun a p => T.relu (T.batchNorm2d p.2 (T.conv2d p.1 a))) x)

/-- `fc_dim` computed in `ModifiedResNet.__init__` (lines 192-196):
`f_out_dim * t_out_dim + 1` with `f_out_dim = n_mels // 32` and
`t_out_dim = ((audio_len_seconds * sample_rate) // (n_fft // 2) + 1) // 32`. -/
def ModifiedResNet.fc_dim (c : Config) : Nat :=
  (c.n_mels / 32) * (((c.audio_len_seconds * c.sample_rate) / (c.n_fft / 2) + 1) / 32) + 1

/-- `ModifiedResNet.forward` (lines 211-239) in the value model:
mel-spectrogram, amplitude-to-db, `unsqueeze(1)`, dtype cast, the stem,
the four residual stages, then the pooling head selected by
`config.pooling` (`attnpool` for "attention", adaptive-avgpool /
`squeeze()` / `Linear(512, 256)` for "average", nothing otherwise). -/
def ModifiedResNet.forwardV (c : Config) (x : T) : T :=
  let setup := ModifiedResNet.mel_setup c
  let spec := T.ampToDB setup.amplitude_to_db (T.melSpec setup.spec x)
  let x1 := T.typeCast (T.unsqueeze 1 spec)
  let x2 := ModifiedResNet.stemV c x1
  let ls := ModifiedResNet.layersM c
  let x3 := applyBlocks ls.1 x2
  let x4 := applyBlocks ls.2.1 x3
  let x5 := applyBlocks ls.2.2.1 x4
  let x6 := applyBlocks ls.2.2.2 x5
  if c.pooling = "attention" then
    T.attnPool (ModifiedResNet.fc_dim c) (c.conv_out_channels * 32) 8 c.hidden_size x6
  else if c.pooling = "average" then
    T.linear 0 512 256 (T.squeeze (T.adaptiveAvgPool2d 1 1 x6))
  else x6

/-- `AudioCNN.conv_block` (lines 257-262): Conv2d, BatchNorm2d, ReLU. -/
def AudioCNN.conv_block (in_channels out_channels kernel_size stride padding : Nat)
    (x : T) : T :=
  T.relu (T.batchNorm2d out_channels
    (T.conv2d { in_channels := in_channels, out_channels := out_channels,
                kernel_size := kernel_size, stride := stride,
                padding := padding, bias := true } x))

/-- `AudioCNN.forward` (lines 276-286): the transforms, `unsqueeze(1)`,
the four conv blocks (1 to 64, stride 1; then 64 to 128, 128 to 256,
256 to 512, each stride 2), `AdaptiveAvgPool2d((1, 1))`,
`flatten(x, 1)`, and `Linear(512, hidden_size)`. -/
def AudioCNN.forwardV (c : Config) (x : T) : T :=
  let setup := AudioCNN.setup_mel_spectrogram c
  let spec := T.ampToDB setup.amplitude_to_db (T.melSpec setup.spec x)
  let x1 := T.unsqueeze 1 spec
  let x2 := AudioCNN.conv_block 256 512 3 2 1
    (AudioCNN.conv_block 128 256 3 2 1
      (AudioCNN.conv_block 64 128 3 2 1
        (AudioCNN.conv_block 1 64 3 1 1 x1)))
  T.linear 1 512 c.hidden_size (T.flatten 1 (T.adaptiveAvgPool2d 1 1 x2))

/-- `AudioEfficientNet.forward` (lines 314-320): the transforms,
`unsqueeze(1)`, then the (modified) `efficientnet_b0`, whose classifier
ends in `Linear(1280, hidden_size)`. -/
def AudioEfficientNet.forwardV (c : Config) (x : T) : T :=
  let setup := AudioEfficientNet.setup_mel_spectrogram c
  let spec := T.ampToDB setup.amplitude_to_db (T.melSpec setup.spec x)
  T.efficientNet c.hidden_size (T.unsqueeze 1 spec)

/-- `PositionalEncoding.forward` (lines 385-392), value part: add the
(shape-matched) slice of the `pe` buffer to the input and apply
dropout; the two `print` calls do not touch the value. -/
def PositionalEncoding.forwardV (x : T) : T :=
  T.dropout (T.add x (T.peSlice x))

/-- `AudioTransformer.forward` (lines 359-371): the transforms,
`unsqueeze(1)`, `reshape(batch, -1, d_model)`, positional encoding,
the transformer encoder, mean over dim 1, and
`Linear(d_model, output_size)`; sizes come from `config.get` with
defaults 512 / 6 / 8 / 2048 / 256. -/
def AudioTransformer.forwardV (c : Config) (x : T) : T :=
  let setup := AudioTransformer.setup_mel_spectrogram c
  let d_model := c.get hiddenSizeKey 512
  let spec := T.ampToDB setup.amplitude_to_db (T.melSpec setup.spec x)
  let x1 := T.reshapeSeq d_model (T.unsqueeze 1 spec)
  let x2 := PositionalEncoding.forwardV x1
  let x3 := T.transformerEncoder (c.get numLayersKey 6) (c.get numHeadsKey 8)
    (c.get dimFeedforwardKey 2048) x2
  T.linear 2 d_model (c.get outputSizeKey 256) (T.meanDim 1 x3)

/-- `AudioAutoEncoder.encoder_linear` (lines 404-408):
`Linear(128 * 1836, 512)`, ReLU, `Linear(512, latent_dim)`. -/
def AudioAutoEncoder.encoder_linearV (c : Config) (x : T) : T :=
  T.linear 5 512 (c.get latentDimKey 256) (T.relu (T.linear 4 (128 * 1836) 512 x))

/-- `AudioAutoEncoder.reparameterize` (lines 425-428) with the Gaussian
sample `eps = torch.randn_like(std)` made an explicit argument:
`mu + eps * exp(0.5 * logvar)`. -/
def AudioAutoEncoder.reparameterizeV (mu logvar eps : T) : T :=
  T.add mu (T.mul eps (T.texp (T.halfMul logvar)))

/-- `AudioAutoEncoder.forward` (lines 430-450) with explicit noise: the
transforms, `unsqueeze(1)`, `reshape(batch, -1)`, the encoder MLP, the
`fc_mu` / `fc_logvar` heads (both `Linear(latent_dim, output_size)`),
and the reparameterised sample. -/
def AudioAutoEncoder.forwardV (c : Config) (x : T) (eps : T) : T :=
  let setup := AudioAutoEncoder.setup_mel_spectrogram c
  let spec := T.ampToDB setup.amplitude_to_db (T.melSpec setup.spec x)
  let x1 := T.reshapeFlat (T.unsqueeze 1 spec)
  let encoded := AudioAutoEncoder.encoder_linearV c x1
  let mu := T.linear 6 (c.get latentDimKey 256) (c.get outputSizeKey 256) encoded
  let logvar := T.linear 7 (c.get latentDimKey 256) (c.get outputSizeKey 256) encoded
  AudioAutoEncoder.reparameterizeV mu logvar eps

/-- Does a learned (parameterised) layer occur anywhere in the
expression?  Learned layers here: convolutions, batch norms, linear
layers, the transformer encoder, the efficientnet trunk and the
attention pooling module. -/
def T.hasLearned : T → Bool
  | T.input => false
  | T.noise _ => false
  | T.melSpec _ t => t.hasLearned
  | T.ampToDB _ t => t.hasLearned
  | T.unsqueeze _ t => t.hasLearned
  | T.typeCast t => t.hasLearned
  | T.conv2d _ _ => true
  | T.batchNorm2d _ _ => true
  | T.relu t => t.hasLearned
  | T.avgPool2d _ t => t.hasLearned
  | T.adaptiveAvgPool2d _ _ t => t.hasLearned
  | T.linear _ _ _ _ => true
  | T.flatten _ t => t.hasLearned
  | T.reshapeFlat t => t.hasLearned
  | T.reshapeSeq _ t => t.hasLearned
  | T.meanDim _ t => t.hasLearned
  | T.squeeze t => t.hasLearned
  | T.add a b => a.hasLearned || b.hasLearned
  | T.mul a b => a.hasLearned || b.hasLearned
  | T.texp t => t.hasLearned
  | T.halfMul t => t.hasLearned
  | T.dropout t => t.hasLearned
  | T.peSlice t => t.hasLearned
  | T.transformerEncoder _ _ _ _ => true
  | T.efficientNet _ _ => true
  | T.attnPool _ _ _ _ _ => true

/-- No learned layer is applied before a spectrogram transform: every
`melSpec` / `ampToDB` node of the expression has a learned-layer-free
subexpression below it. -/
def T.noLearnedBelowSpec : T → Bool
  | T.input => true
  | T.noise _ => true
  | T.melSpec _ t => !t.hasLearned && t.noLearnedBelowSpec
  | T.ampToDB _ t => !t.hasLearned && t.noLearnedBelowSpec
  | T.unsqueeze _ t => t.noLearnedBelowSpec
  | T.typeCast t => t.noLearnedBelowSpec
  | T.conv2d _ t => t.noLearnedBelowSpec
  | T.batchNorm2d _ t => t.noLearnedBelowSpec
  | T.relu t => t.noLearnedBelowSpec
  | T.avgPool2d _ t => t.noLearnedBelowSpec
  | T.adaptiveAvgPool2d _ _ t => t.noLearnedBelowSpec
  | T.linear _ _ _ t => t.noLearnedBelowSpec
  | T.flatten _ t => t.noLearnedBelowSpec
  | T.reshapeFlat t => t.noLearnedBelowSpec
  | T.reshapeSeq _ t => t.noLearnedBelowSpec
  | T.meanDim _ t => t.noLearnedBelowSpec
  | T.squeeze t => t.noLearnedBelowSpec
  | T.add a b => a.noLearnedBelowSpec && b.noLearnedBelowSpec
  | T.mul a b => a.noLearnedBelowSpec && b.noLearnedBelowSpec
  | T.texp t => t.noLearnedBelowSpec
  | T.halfMul t => t.noLearnedBelowSpec
  | T.dropout t => t.noLearnedBelowSpec
  | T.peSlice t => t.noLearnedBelowSpec
  | T.transformerEncoder _ _ _ t => t.noLearnedBelowSpec
  | T.efficientNet _ t => t.noLearnedBelowSpec
  | T.attnPool _ _ _ _ t => t.noLearnedBelowSpec

/-- A tensor shape: its list of dimension sizes, outermost first. -/
abbrev Shape := List Nat

/-- Shape semantics of `MelSpectrogram` on a batch of waveforms
`[b, len]`: `n_mels` mel bins and `len // hop + 1` frames, with the
torchaudio defaults `win_length = n_fft`, `hop_length = win_length // 2`
and `center=True`.  Needs `n_fft ≥ 2` so the hop is positive. -/
def melSpecShape (args : MelSpectrogramArgs) (s : Shape) : Option Shape :=
  match s with
  | [b, len] =>
    if 2 ≤ args.n_fft then some [b, args.n_mels, len / (args.n_fft / 2) + 1]
    else none
  | _ => none

/-- `AmplitudeToDB` is pointwise: it preserves the shape. -/
def ampToDBShape (s : Shape) : Option Shape := some s

/-- `unsqueeze(1)`: insert a size-1 axis at position 1. -/
def unsqueeze1Shape (s : Shape) : Option Shape :=
  match s with
  | b :: rest => some (b :: 1 :: rest)
  | [] => none

/-- `nn.Conv2d` on an NCHW tensor: channels must match, and each spatial
output size is `(d + 2 * padding - kernel) / stride + 1`. -/
def conv2dShape (a : Conv2dArgs) (s : Shape) : Option Shape :=
  match s with
  | [b, c, h, w] =>
    if c = a.in_channels ∧ 0 < a.stride ∧
        a.kernel_size ≤ h + 2 * a.padding ∧ a.kernel_size ≤ w + 2 * a.padding then
      some [b, a.out_channels,
            (h + 2 * a.padding - a.kernel_size) / a.stride + 1,
            (w + 2 * a.padding - a.kernel_size) / a.stride + 1]
    else none
  | _ => none

/-- `nn.BatchNorm2d`: channel count must match `num_features`. -/
def batchNorm2dShape (num_features : Nat) (s : Shape) : Option Shape :=
  match s with
  | [b, c, h, w] => if c = num_features then some [b, c, h, w] else none
  | _ => none

/-- `nn.AvgPool2d(k)` (stride defaults to `k`): spatial sizes divide. -/
def avgPool2dShape (k : Nat) (s : Shape) : Option Shape :=
  match s with
  | [b, c, h, w] => if 0 < k ∧ k ≤ h ∧ k ≤ w then some [b, c, h / k, w / k] else none
  | _ => none

/-- `nn.AdaptiveAvgPool2d((outH, outW))` on a non-empty feature map. -/
def adaptiveAvgPool2dShape (outH outW : Nat) (s : Shape) : Option Shape :=
  match s with
  | [b, c, h, w] => if 0 < h ∧ 0 < w then some [b, c, outH, outW] else none
  | _ => none

/-- `nn.Linear`: the last axis must equal `in_features` and becomes
`out_features`. -/
def linearShape (in_features out_features : Nat) (s : Shape) : Option Shape :=
  match s.getLast? with
  | some d => if d = in_features then some (s.dropLast ++ [out_features]) else none
  | none => none

/-- `torch.flatten(x, 1)`: collapse all axes after the first. -/
def flatten1Shape (s : Shape) : Option Shape :=
  match s with
  | b :: rest => some [b, rest.prod]
  | [] => none

/-- `x.squeeze()`: drop every axis of size 1. -/
def squeezeShape (s : Shape) : Option Shape :=
  some (s.filter (fun d => d != 1))

/-- `AttentionPool2d.forward` (lines 32-62): NCHW is flattened to
`(HW) N C` and a mean token is prepended, the positional embedding of
length `spacial_dim` is broadcast-added (so `spacial_dim = H*W + 1` and
`embed_dim = C` must hold), multi-head attention needs
`embed_dim % num_heads = 0`, and the first token is returned after the
`c_proj` to `output_dim`. -/
def attnPoolShape (spacial_dim embed_dim num_heads output_dim : Nat)
    (s : Shape) : Option Shape :=
  match s with
  | [b, c, h, w] =>
    if spacial_dim = h * w + 1 ∧ embed_dim = c ∧ 0 < num_heads ∧ c % num_heads = 0 then
      some [b, output_dim]
    else none
  | _ => none

/-- `Bottleneck.forward` at shape level: the main branch, the identity
branch (through the downsample when present), and the residual addition,
which requires both branches to agree. -/
def BottleneckM.shapeF (bk : BottleneckM) (s : Shape) : Option Shape := do
  let o1 ← conv2dShape bk.conv1 s
  let o2 ← batchNorm2dShape bk.bn1 o1
  let o3 ← conv2dShape bk.conv2 o2
  let o4 ← batchNorm2dShape bk.bn2 o3
  let o5 ← (match bk.avgpool with
    | some k => avgPool2dShape k o4
    | none => some o4)
  let o6 ← conv2dShape bk.conv3 o5
  let o7 ← batchNorm2dShape bk.bn3 o6
  let idn ← (match bk.downsample with
    | none => some s
    | some d => do
        let y1 ← avgPool2dShape d.pool s
        let y2 ← conv2dShape d.conv y1
        batchNorm2dShape d.bn y2)
  if o7 = idn then some o7 else none

/-- Shape of an `nn.Sequential` of Bottleneck blocks. -/
def blocksShapeF (bs : List BottleneckM) (s : Shape) : Option Shape :=
  bs.foldlM (fun a b => BottleneckM.shapeF b a) s

/-- Everything in `ModifiedResNet.forward` before the pooling head:
transforms, `unsqueeze(1)`, the stem fold with its `AvgPool2d(2)`, and
the four residual stages. -/
def ModifiedResNet.backboneShape (c : Config) (s : Shape) : Option Shape := do
  let sp ← melSpecShape (ModifiedResNet.mel_setup c).spec s
  let sp2 ← ampToDBShape sp
  let x ← unsqueeze1Shape sp2
  let x ← (ModifiedResNet.stem_pairs c).foldlM
    (fun a p => (conv2dShape p.1 a).bind (batchNorm2dShape p.2)) x
  let x ← avgPool2dShape 2 x
  let ls := ModifiedResNet.layersM c
  let x ← blocksShapeF ls.1 x
  let x ← blocksShapeF ls.2.1 x
  let x ← blocksShapeF ls.2.2.1 x
  blocksShapeF ls.2.2.2 x

/-- The pooling head of `ModifiedResNet.forward` at shape level. -/
def ModifiedResNet.poolShape (c : Config) (s : Shape) : Option Shape :=
  if c.pooling = "attention" then
    attnPoolShape (ModifiedResNet.fc_dim c) (c.conv_out_channels * 32) 8 c.hidden_size s
  else if c.pooling = "average" then do
    let x ← adaptiveAvgPool2dShape 1 1 s
    let x2 ← squeezeShape x
    linearShape 512 256 x2
  else some s

/-- `ModifiedResNet.forward` at shape level. -/
def ModifiedResNet.shapeF (c : Config) (s : Shape) : Option Shape :=
  (ModifiedResNet.backboneShape c s).bind (ModifiedResNet.poolShape c)

/-- `AudioCNN.conv_block` at shape level. -/
def AudioCNN.convBlockShape (in_channels out_channels kernel_size stride padding : Nat)
    (s : Shape) : Option Shape :=
  (conv2dShape { in_channels := in_channels, out_channels := out_channels,
                 kernel_size := kernel_size, stride := stride,
                 padding := padding, bias := true } s).bind
    (batchNorm2dShape out_channels)

/-- `AudioCNN.forward` at shape level. -/
def AudioCNN.shapeF (c : Config) (s : Shape) : Option Shape := do
  let sp ← melSpecShape (AudioCNN.setup_mel_spectrogram c).spec s
  let sp2 ← ampToDBShape sp
  let x ← unsqueeze1Shape sp2
  let x ← AudioCNN.convBlockShape 1 64 3 1 1 x
  let x ← AudioCNN.convBlockShape 64 128 3 2 1 x
  let x ← AudioCNN.convBlockShape 128 256 3 2 1 x
  let x ← AudioCNN.convBlockShape 256 512 3 2 1 x
  let x ← adaptiveAvgPool2dShape 1 1 x
  let x2 ← flatten1Shape x
  linearShape 512 c.hidden_size x2

/-- `x.reshape(x.size(0), -1, d_model)`: the trailing axes must multiply
to a multiple of `d_model`. -/
def reshapeSeqShape (d_model : Nat) (s : Shape) : Option Shape :=
  match s with
  | b :: rest =>
    if 0 < d_model ∧ rest.prod % d_model = 0 then some [b, rest.prod / d_model, d_model]
    else none
  | [] => none

/-- `x.mean(dim=1)` on a rank-3 tensor. -/
def meanDim1Shape (s : Shape) : Option Shape :=
  match s with
  | a :: _ :: rest => some (a :: rest)
  | _ => none

/-- The `nn.TransformerEncoder`: the feature axis must equal `d_model`,
which must be divisible by `nhead`; the shape is preserved. -/
def transformerEncoderShape (d_model nhead : Nat) (s : Shape) : Option Shape :=
  match s with
  | [a, b, e] => if e = d_model ∧ 0 < nhead ∧ d_model % nhead = 0 then some [a, b, e] else none
  | _ => none

/-- First print line of `PositionalEncoding.forward` (line 388). -/
def peLine1Head : String := "Positional Encoding shape (after expand): "

/-- Second print line of `PositionalEncoding.forward` (line 389). -/
def peLine2Head : String := "Input shape before adding positional encoding: "

/-- `PositionalEncoding.forward` at shape level, with the print log.  On
a rank-3 input, slicing `pe[:x.size(1)]` and expanding needs
`x.size(1) ≤ max_len = 5000` (otherwise `expand` raises before any
print); the two prints then fire, after which the broadcast addition
needs the last axis to equal `d_model`. -/
def PositionalEncoding.forwardSh (d_model : Nat) (s : Shape) :
    Option Shape × List String :=
  match s with
  | [x0, x1, x2] =>
    if x1 ≤ 5000 then
      ((if x2 = d_model then some [x0, x1, x2] else none),
       [peLine1Head ++ toString [x0, x1, d_model], peLine2Head ++ toString [x0, x1, x2]])
    else (none, [])
  | _ => (none, [])

/-- Print-free shape semantics of `PositionalEncoding.forward`. -/
def PositionalEncoding.shapeF (d_model : Nat) (s : Shape) : Option Shape :=
  match s with
  | [x0, x1, x2] => if x1 ≤ 5000 ∧ x2 = d_model then some [x0, x1, x2] else none
  | _ => none

/-- `AudioTransformer.forward` before the positional encoding. -/
def AudioTransformer.preShape (c : Config) (s : Shape) : Option Shape := do
  let sp ← melSpecShape (AudioTransformer.setup_mel_spectrogram c).spec s
  let sp2 ← ampToDBShape sp
  let x ← unsqueeze1Shape sp2
  reshapeSeqShape (c.get hiddenSizeKey 512) x

/-- `AudioTransformer.forward` after the positional encoding. -/
def AudioTransformer.postShape (c : Config) (s : Shape) : Option Shape := do
  let x ← transformerEncoderShape (c.get hiddenSizeKey 512) (c.get numHeadsKey 8) s
  let x2 ← meanDim1Shape x
  linearShape (c.get hiddenSizeKey 512) (c.get outputSizeKey 256) x2

/-- `AudioTransformer.forward` at shape level, threading the print log of
`PositionalEncoding.forward`. -/
def AudioTransformer.runSh (c : Config) (s : Shape) : Option Shape × List String :=
  match AudioTransformer.preShape c s with
  | none => (none, [])
  | some r =>
    match PositionalEncoding.forwardSh (c.get hiddenSizeKey 512) r with
    | (none, logs) => (none, logs)
    | (some r2, logs) => (AudioTransformer.postShape c r2, logs)

/-- `AudioTransformer.forward` at shape level, print-free. -/
def AudioTransformer.shapeF (c : Config) (s : Shape) : Option Shape := do
  let r ← AudioTransformer.preShape c s
  let r2 ← PositionalEncoding.shapeF (c.get hiddenSizeKey 512) r
  AudioTransformer.postShape c r2

/-- `x.reshape(x.size(0), -1)`: collapse all axes after the first. -/
def reshapeFlatShape (s : Shape) : Option Shape :=
  match s with
  | b :: rest => some [b, rest.prod]
  | [] => none

/-- `AudioAutoEncoder.forward` at shape level: the encoder's first linear
layer hard-codes `128 * 1836` input features; `mu`, `logvar` and the
noise share a shape, so the reparameterised sample keeps it. -/
def AudioAutoEncoder.shapeF (c : Config) (s : Shape) : Option Shape := do
  let sp ← melSpecShape (AudioAutoEncoder.setup_mel_spectrogram c).spec s
  let sp2 ← ampToDBShape sp
  let x ← unsqueeze1Shape sp2
  let x2 ← reshapeFlatShape x
  let x3 ← linearShape (128 * 1836) 512 x2
  let enc ← linearShape 512 (c.get latentDimKey 256) x3
  let mu ← linearShape (c.get latentDimKey 256) (c.get outputSizeKey 256) enc
  let logvar ← linearShape (c.get latentDimKey 256) (c.get outputSizeKey 256) enc
  if mu = logvar then some mu else none

/-- A small configuration for the residual backbone with attention
pooling, chosen so that a length-31 waveform is admissible end to end
(`fc_dim` matches the actual feature-map size). -/
def cfgAttention : Config :=
  { sample_rate := 31, n_fft := 2, f_min := 0, f_max := 15, n_mels := 32,
    pooling := "attention", conv_out_channels := 16, hidden_size := 128,
    audio_len_seconds := 1, dict := [] }

/-- The same configuration with `pooling = "average"` (the
`Linear(512, 256)` head needs `conv_out_channels * 32 = 512`). -/
def cfgAverage : Config :=
  { sample_rate := 31, n_fft := 2, f_min := 0, f_max := 15, n_mels := 32,
    pooling := "average", conv_out_channels := 16, hidden_size := 128,
    audio_len_seconds := 1, dict := [] }

/-- A configuration for `AudioTransformer` with dictionary entries
`hidden_size = 4`, `num_heads = 2`, `output_size = 3`. -/
def cfgTransformer : Config :=
  { sample_rate := 4, n_fft := 2, f_min := 0, f_max := 2, n_mels := 4,
    pooling := "none", conv_out_channels := 16, hidden_size := 4,
    audio_len_seconds := 1,
    dict := [(hiddenSizeKey, 4), (numHeadsKey, 2), (outputSizeKey, 3)] }

/-- A configuration for `AudioAutoEncoder`: with `n_mels = 128` and
`hop = 1`, a length-1835 waveform yields the hard-coded
`128 * 1836` encoder input features. -/
def cfgAutoEnc : Config :=
  { sample_rate := 1835, n_fft := 2, f_min := 0, f_max := 900, n_mels := 128,
    pooling := "none", conv_out_channels := 16, hidden_size := 128,
    audio_len_seconds := 1, dict := [] }

/-- A configuration for `AudioCNN`. -/
def cfgCNN : Config :=
  { sample_rate := 31, n_fft := 2, f_min := 0, f_max := 15, n_mels := 32,
    pooling := "none", conv_out_channels := 16, hidden_size := 128,
    audio_len_seconds := 1, dict := [] }

/-- A configuration with `n_mels = 128`; `cfgMelB` differs from it only
in the mel-spectrogram parameter `n_mels`. -/
def cfgMelA : Config :=
  { sample_rate := 16000, n_fft := 1024, f_min := 0, f_max := 8000, n_mels := 128,
    pooling := "attention", conv_out_channels := 64, hidden_size := 512,
    audio_len_seconds := 10, dict := [] }

/-- Identical to `cfgMelA` except `n_mels = 64`. -/
def cfgMelB : Config :=
  { sample_rate := 16000, n_fft := 1024, f_min := 0, f_max := 8000, n_mels := 64,
    pooling := "attention", conv_out_channels := 64, hidden_size := 512,
    audio_len_seconds := 10, dict := [] }

/-- A configuration differing from `cfgPoolB` only in the (non-mel)
`pooling` field, which `AudioCNN.forward` never reads. -/
def cfgPoolA : Config :=
  { sample_rate := 16000, n_fft := 1024, f_min := 0, f_max := 8000, n_mels := 128,
    pooling := "attention", conv_out_channels := 64, hidden_size := 512,
    audio_len_seconds := 10, dict := [] }

/-- Identical to `cfgPoolA` except `pooling = "average"`. -/
def cfgPoolB : Config :=
  { sample_rate := 16000, n_fft := 1024, f_min := 0, f_max := 8000, n_mels := 128,
    pooling := "average", conv_out_channels := 64, hidden_size := 512,
    audio_len_seconds := 10, dict := [] }

/-- Claim C6: the configuration-driven mel-spectrogram setup is repeated
verbatim: for every config, the `setup_mel_spectrogram` methods of
AudioCNN, AudioEfficientNet, AudioTransformer and AudioAutoEncoder build
a MelSpectrogram from the config's `sample_rate`, `n_fft`, `f_min`,
`f_max`, `n_mels` with `power = 2`, `normalized = True` and an
`AmplitudeToDB(top_db = 100)`, and the four setup functions are equal as
functions of the config. -/
theorem c6_setup_mel_spectrogram_identical :
    (∀ c : Config, AudioCNN.setup_mel_spectrogram c =
      { spec := { sample_rate := c.sample_rate, n_fft := c.n_fft,
                  f_min := c.f_min, f_max := c.f_max, n_mels := c.n_mels,
                  power := 2, normalized := true },
        amplitude_to_db := { top_db := 100 } }) ∧
    AudioCNN.setup_mel_spectrogram = AudioEfficientNet.setup_mel_spectrogram ∧
    AudioCNN.setup_mel_spectrogram = AudioTransformer.setup_mel_spectrogram ∧
    AudioCNN.setup_mel_spectrogram = AudioAutoEncoder.setup_mel_spectrogram :=
  ⟨fun _ => rfl, rfl, rfl, rfl⟩

/-- Claim C10: `AudioAutoEncoder.forward` is not a deterministic function
of the waveform.  With the Gaussian sample made an explicit argument,
the returned embedding is
`fc_mu(encoded) + eps * exp(0.5 * fc_logvar(encoded))`, and there are an
input and two distinct noise samples giving different embeddings. -/
theorem c10_autoencoder_nondeterministic :
    (∀ (c : Config) (x eps : T),
      AudioAutoEncoder.forwardV c x eps =
        T.add
          (T.linear 6 (c.get latentDimKey 256) (c.get outputSizeKey 256)
            (AudioAutoEncoder.encoder_linearV c
              (T.reshapeFlat (T.unsqueeze 1
                (T.ampToDB (AudioAutoEncoder.setup_mel_spectrogram c).amplitude_to_db
                  (T.melSpec (AudioAutoEncoder.setup_mel_spectrogram c).spec x))))))
          (T.mul eps (T.texp (T.halfMul
            (T.linear 7 (c.get latentDimKey 256) (c.get outputSizeKey 256)
              (AudioAutoEncoder.encoder_linearV c
                (T.reshapeFlat (T.unsqueeze 1
                  (T.ampToDB (AudioAutoEncoder.setup_mel_spectrogram c).amplitude_to_db
                    (T.melSpec (AudioAutoEncoder.setup_mel_spectrogram c).spec x)))))))))) ∧
    (∃ (x e1 e2 : T), e1 ≠ e2 ∧
      AudioAutoEncoder.forwardV cfgAutoEnc x e1 ≠ AudioAutoEncoder.forwardV cfgAutoEnc x e2) :=
  ⟨fun _ _ _ => rfl, T.input, T.noise 0, T.noise 1, by decide, by decide⟩

/-- Claim C8: a `Bottleneck(inplanes, planes, stride)` creates a
downsample branch iff `stride > 1` or `inplanes ≠ 4 * planes`, and its
forward returns ReLU of (main branch + identity), the identity being the
raw input exactly when no downsample exists and the
avgpool-conv-batchnorm of the input otherwise. -/
theorem c8_bottleneck_structure :
    ∀ (inplanes planes stride : Nat) (x : T),
      ((Bottleneck.mkM inplanes planes stride).downsample ≠ none ↔
        1 < stride ∨ inplanes ≠ 4 * planes) ∧
      (Bottleneck.mkM inplanes planes stride).forwardV x =
        T.relu (T.add
          (T.batchNorm2d (planes * 4)
            (T.conv2d { in_channels := planes, out_channels := planes * 4,
                        kernel_size := 1, stride := 1, padding := 0, bias := false }
              ((if 1 < stride then T.avgPool2d stride else fun t => t)
                (T.relu (T.batchNorm2d planes
                  (T.conv2d { in_channels := planes, out_channels := planes,
                              kernel_size := 3, stride := 1, padding := 1, bias := false }
                    (T.relu (T.batchNorm2d planes
                      (T.conv2d { in_channels := inplanes, out_channels := planes,
                                  kernel_size := 1, stride := 1, padding := 0,
                                  bias := false } x)))))))))
          (if 1 < stride ∨ inplanes ≠ 4 * planes then
            T.batchNorm2d (planes * 4)
              (T.conv2d { in_channels := inplanes, out_channels := planes * 4,
                          kernel_size := 1, stride := 1, padding := 0, bias := false }
                (T.avgPool2d stride x))
          else x)) := by
  intro ip p s x
  have hcond : (1 < s ∨ ip ≠ p * Bottleneck.expansion) ↔ (1 < s ∨ ip ≠ 4 * p) := by
    rw [Bottleneck.expansion, Nat.mul_comm]
  constructor
  · by_cases h : 1 < s ∨ ip ≠ p * Bottleneck.expansion
    · simp [Bottleneck.mkM, h, hcond.mp h]
    · simp [Bottleneck.mkM, h]
      simp only [Bottleneck.expansion] at h
      omega
  · by_cases h1 : 1 < s <;> by_cases h2 : ip = 4 * p <;>
      simp [Bottleneck.mkM, BottleneckM.forwardV, Bottleneck.expansion, h1, h2,
        Nat.mul_comm p 4]

/-- `_make_layer` produces `blocks` Bottlenecks (for positive block
counts). -/
theorem make_layer_length (ip p blocks s : Nat) (h : 0 < blocks) :
    (ModifiedResNet.make_layer ip p blocks s).1.length = blocks := by
  simp [ModifiedResNet.make_layer]
  omega

/-- Every block of a `_make_layer` stage has the stage's plane width. -/
theorem make_layer_planes (ip p blocks s : Nat) :
    ∀ b ∈ (ModifiedResNet.make_layer ip p blocks s).1, b.planes = p := by
  intro b hb
  simp [ModifiedResNet.make_layer, List.mem_append, List.mem_map] at hb
  rcases hb with rfl | ⟨a, _, rfl⟩ <;> rfl

/-- The first block of a `_make_layer` stage carries the stage stride. -/
theorem make_layer_head_stride (ip p blocks s : Nat) :
    (ModifiedResNet.make_layer ip p blocks s).1.head?.map BottleneckM.stride = some s :=
  rfl

/-- All blocks after the first in a `_make_layer` stage have stride 1. -/
theorem make_layer_tail_stride (ip p blocks s : Nat) :
    ∀ b ∈ (ModifiedResNet.make_layer ip p blocks s).1.tail, b.stride = 1 := by
  intro b hb
  simp [ModifiedResNet.make_layer, List.mem_map] at hb
  obtain ⟨a, _, rfl⟩ := hb
  rfl

/-- Every block of a `_make_layer` stage expands its output channels by
`Bottleneck.expansion`. -/
theorem make_layer_conv3 (ip p blocks s : Nat) :
    ∀ b ∈ (ModifiedResNet.make_layer ip p blocks s).1,
      b.conv3.out_channels = b.planes * Bottleneck.expansion := by
  intro b hb
  simp [ModifiedResNet.make_layer, List.mem_append, List.mem_map] at hb
  rcases hb with rfl | ⟨a, _, rfl⟩ <;> rfl

/-- Claim C4: the four residual stages of ModifiedResNet contain exactly
(3, 4, 6, 3) Bottleneck blocks with plane widths
(width, 2*width, 4*width, 8*width) for `width = conv_out_channels`,
strides (1, 2, 2, 2) on the first block of each stage (1 on the rest),
and every block expands its output channels by `expansion = 4`. -/
theorem c4_resnet_layer_shapes :
    ∀ c : Config,
      ((ModifiedResNet.layersM c).1.length = 3 ∧
       (ModifiedResNet.layersM c).2.1.length = 4 ∧
       (ModifiedResNet.layersM c).2.2.1.length = 6 ∧
       (ModifiedResNet.layersM c).2.2.2.length = 3) ∧
      ((∀ b ∈ (ModifiedResNet.layersM c).1, b.planes = c.conv_out_channels) ∧
       (∀ b ∈ (ModifiedResNet.layersM c).2.1, b.planes = 2 * c.conv_out_channels) ∧
       (∀ b ∈ (ModifiedResNet.layersM c).2.2.1, b.planes = 4 * c.conv_out_channels) ∧
       (∀ b ∈ (ModifiedResNet.layersM c).2.2.2, b.planes = 8 * c.conv_out_channels)) ∧
      ((ModifiedResNet.layersM c).1.head?.map BottleneckM.stride = some 1 ∧
       (ModifiedResNet.layersM c).2.1.head?.map BottleneckM.stride = some 2 ∧
       (ModifiedResNet.layersM c).2.2.1.head?.map BottleneckM.stride = some 2 ∧
       (ModifiedResNet.layersM c).2.2.2.head?.map BottleneckM.stride = some 2 ∧
       (∀ b ∈ (ModifiedResNet.layersM c).1.tail, b.stride = 1) ∧
       (∀ b ∈ (ModifiedResNet.layersM c).2.1.tail, b.stride = 1) ∧
       (∀ b ∈ (ModifiedResNet.layersM c).2.2.1.tail, b.stride = 1) ∧
       (∀ b ∈ (ModifiedResNet.layersM c).2.2.2.tail, b.stride = 1)) ∧
      (Bottleneck.expansion = 4 ∧
       (∀ b ∈ (ModifiedResNet.layersM c).1, b.conv3.out_channels = b.planes * 4) ∧
       (∀ b ∈ (ModifiedResNet.layersM c).2.1, b.conv3.out_channels = b.planes * 4) ∧
       (∀ b ∈ (ModifiedResNet.layersM c).2.2.1, b.conv3.out_channels = b.planes * 4) ∧
       (∀ b ∈ (ModifiedResNet.layersM c).2.2.2, b.conv3.out_channels = b.planes * 4)) := by
  intro c
  refine ⟨⟨?_, ?_, ?_, ?_⟩, ⟨?_, ?_, ?_, ?_⟩,
    ⟨?_, ?_, ?_, ?_, ?_, ?_, ?_, ?_⟩, rfl, ?_, ?_, ?_, ?_⟩
  · exact make_layer_length _ _ 3 _ (by omega)
  · exact make_layer_length _ _ 4 _ (by omega)
  · exact make_layer_length _ _ 6 _ (by omega)
  · exact make_layer_length _ _ 3 _ (by omega)
  · exact make_layer_planes _ _ _ _
  · intro b hb
    rw [make_layer_planes _ _ _ _ b hb, Nat.mul_comm]
  · intro b hb
    rw [make_layer_planes _ _ _ _ b hb, Nat.mul_comm]
  · intro b hb
    rw [make_layer_planes _ _ _ _ b hb, Nat.mul_comm]
  · exact make_layer_head_stride _ _ _ _
  · exact make_layer_head_stride _ _ _ _
  · exact make_layer_head_stride _ _ _ _
  · exact make_layer_head_stride _ _ _ _
  · exact make_layer_tail_stride _ _ _ _
  · exact make_layer_tail_stride _ _ _ _
  · exact make_layer_tail_stride _ _ _ _
  · exact make_layer_tail_stride _ _ _ _
  · exact make_layer_conv3 _ _ _ _
  · exact make_layer_conv3 _ _ _ _
  · exact make_layer_conv3 _ _ _ _
  · exact make_layer_conv3 _ _ _ _

/-- Claim C3: with attention pooling, `ModifiedResNet.forward` computes,
after the two spectrogram transforms (and `unsqueeze` / dtype cast), the
3-convolution stem — each convolution followed by batch norm and ReLU,
then the 2x2 average pool — then the four bottleneck stacks layer1
through layer4 in order, and finally the QKV attention pooling layer. -/
theorem c3_resnet_forward_order :
    ∀ (c : Config) (x : T), c.pooling = "attention" →
      ModifiedResNet.forwardV c x =
        T.attnPool (ModifiedResNet.fc_dim c) (c.conv_out_channels * 32) 8 c.hidden_size
          (applyBlocks (ModifiedResNet.layersM c).2.2.2
            (applyBlocks (ModifiedResNet.layersM c).2.2.1
              (applyBlocks (ModifiedResNet.layersM c).2.1
                (applyBlocks (ModifiedResNet.layersM c).1
                  (T.avgPool2d 2
                    (T.relu (T.batchNorm2d c.conv_out_channels
                      (T.conv2d { in_channels := c.conv_out_channels / 2,
                                  out_channels := c.conv_out_channels,
                                  kernel_size := 3, stride := 1, padding := 1,
                                  bias := false }
                        (T.relu (T.batchNorm2d (c.conv_out_channels / 2)
                          (T.conv2d { in_channels := c.conv_out_channels / 2,
                                      out_channels := c.conv_out_channels / 2,
                                      kernel_size := 3, stride := 1, padding := 1,
                                      bias := false }
                            (T.relu (T.batchNorm2d (c.conv_out_channels / 2)
                              (T.conv2d { in_channels := 1,
                                          out_channels := c.conv_out_channels / 2,
                                          kernel_size := 3, stride := 2, padding := 1,
                                          bias := false }
                                (T.typeCast (T.unsqueeze 1
                                  (T.ampToDB (ModifiedResNet.mel_setup c).amplitude_to_db
                                    (T.melSpec (ModifiedResNet.mel_setup c).spec
                                      x)))))))))))))))))) := by
  intro c x h
  simp [ModifiedResNet.forwardV, ModifiedResNet.stemV, ModifiedResNet.stem_pairs, h]

/-- Witness for C3 at the concrete configuration `cfgAttention`. -/
theorem c3_resnet_forward_order_witness :
    cfgAttention.pooling = "attention" ∧
    ModifiedResNet.forwardV cfgAttention T.input =
      T.attnPool (ModifiedResNet.fc_dim cfgAttention)
        (cfgAttention.conv_out_channels * 32) 8 cfgAttention.hidden_size
        (applyBlocks (ModifiedResNet.layersM cfgAttention).2.2.2
          (applyBlocks (ModifiedResNet.layersM cfgAttention).2.2.1
            (applyBlocks (ModifiedResNet.layersM cfgAttention).2.1
              (applyBlocks (ModifiedResNet.layersM cfgAttention).1
                (T.avgPool2d 2
                  (T.relu (T.batchNorm2d cfgAttention.conv_out_channels
                    (T.conv2d { in_channels := cfgAttention.conv_out_channels / 2,
                                out_channels := cfgAttention.conv_out_channels,
                                kernel_size := 3, stride := 1, padding := 1,
                                bias := false }
                      (T.relu (T.batchNorm2d (cfgAttention.conv_out_channels / 2)
                        (T.conv2d { in_channels := cfgAttention.conv_out_channels / 2,
                                    out_channels := cfgAttention.conv_out_channels / 2,
                                    kernel_size := 3, stride := 1, padding := 1,
                                    bias := false }
                          (T.relu (T.batchNorm2d (cfgAttention.conv_out_channels / 2)
                            (T.conv2d { in_channels := 1,
                                        out_channels := cfgAttention.conv_out_channels / 2,
                                        kernel_size := 3, stride := 2, padding := 1,
                                        bias := false }
                              (T.typeCast (T.unsqueeze 1
                                (T.ampToDB (ModifiedResNet.mel_setup cfgAttention).amplitude_to_db
                                  (T.melSpec (ModifiedResNet.mel_setup cfgAttention).spec
                                    T.input)))))))))))))))))) :=
  ⟨rfl, c3_resnet_forward_order cfgAttention T.input rfl⟩

/-- Counterexample to claim C7 as stated: two `AudioCNN` instances whose
configs agree on every field except the mel-spectrogram parameter
`n_mels` produce different forward outputs on the same input — the
transforms built by `setup_mel_spectrogram` are applied by `forward`, so
the output does depend on them. -/
theorem c7_mel_setup_not_unused_counterexample :
    cfgMelA.pooling = cfgMelB.pooling ∧
    cfgMelA.conv_out_channels = cfgMelB.conv_out_channels ∧
    cfgMelA.hidden_size = cfgMelB.hidden_size ∧
    cfgMelA.audio_len_seconds = cfgMelB.audio_len_seconds ∧
    cfgMelA.dict = cfgMelB.dict ∧
    cfgMelA.sample_rate = cfgMelB.sample_rate ∧
    cfgMelA.n_fft = cfgMelB.n_fft ∧
    cfgMelA.f_min = cfgMelB.f_min ∧
    cfgMelA.f_max = cfgMelB.f_max ∧
    cfgMelA.n_mels ≠ cfgMelB.n_mels ∧
    AudioCNN.forwardV cfgMelA T.input ≠ AudioCNN.forwardV cfgMelB T.input :=
  ⟨rfl, rfl, rfl, rfl, rfl, rfl, rfl, rfl, rfl, by decide, by decide⟩

/-- Claim C7 amended: the mel-spectrogram setup is duplicated but *used*:
each class's forward output determines the transforms built by its
`setup_mel_spectrogram` (so two instances differing in the
mel-spectrogram parameters of their configs cannot produce the same
symbolic forward output). -/
theorem c7_forward_determines_mel_setup :
    (∀ (a b : Config) (x : T),
      AudioCNN.forwardV a x = AudioCNN.forwardV b x →
        AudioCNN.setup_mel_spectrogram a = AudioCNN.setup_mel_spectrogram b) ∧
    (∀ (a b : Config) (x : T),
      AudioEfficientNet.forwardV a x = AudioEfficientNet.forwardV b x →
        AudioEfficientNet.setup_mel_spectrogram a = AudioEfficientNet.setup_mel_spectrogram b) ∧
    (∀ (a b : Config) (x : T),
      AudioTransformer.forwardV a x = AudioTransformer.forwardV b x →
        AudioTransformer.setup_mel_spectrogram a = AudioTransformer.setup_mel_spectrogram b) ∧
    (∀ (a b : Config) (x eps : T),
      AudioAutoEncoder.forwardV a x eps = AudioAutoEncoder.forwardV b x eps →
        AudioAutoEncoder.setup_mel_spectrogram a = AudioAutoEncoder.setup_mel_spectrogram b) := by
  refine ⟨?_, ?_, ?_, ?_⟩
  · intro a b x h
    simp [AudioCNN.forwardV, AudioCNN.conv_block, AudioCNN.setup_mel_spectrogram] at h ⊢
    tauto
  · intro a b x h
    simp [AudioEfficientNet.forwardV, AudioEfficientNet.setup_mel_spectrogram] at h ⊢
    tauto
  · intro a b x h
    simp [AudioTransformer.forwardV, PositionalEncoding.forwardV,
      AudioTransformer.setup_mel_spectrogram] at h ⊢
    tauto
  · intro a b x eps h
    simp [AudioAutoEncoder.forwardV, AudioAutoEncoder.encoder_linearV,
      AudioAutoEncoder.reparameterizeV, AudioAutoEncoder.setup_mel_spectrogram] at h ⊢
    tauto

/-- Witness for the amended C7: two configs differing only in the unread
`pooling` field give equal AudioCNN outputs, and indeed equal setups. -/
theorem c7_forward_determines_mel_setup_witness :
    AudioCNN.forwardV cfgPoolA T.input = AudioCNN.forwardV cfgPoolB T.input ∧
    AudioCNN.setup_mel_spectrogram cfgPoolA = AudioCNN.setup_mel_spectrogram cfgPoolB :=
  ⟨by decide, c7_forward_determines_mel_setup.1 cfgPoolA cfgPoolB T.input (by decide)⟩

/-- Any Bottleneck forward output starts with learned layers. -/
theorem hasLearned_bottleneckV (b : BottleneckM) (x : T) :
    (BottleneckM.forwardV b x).hasLearned = true := rfl

/-- A stack of Bottlenecks keeps `hasLearned`. -/
theorem hasLearned_applyBlocks (bs : List BottleneckM) (x : T)
    (hx : x.hasLearned = true) : (applyBlocks bs x).hasLearned = true := by
  induction bs generalizing x with
  | nil => exact hx
  | cons b bs ih => exact ih _ (hasLearned_bottleneckV b x)

/-- A Bottleneck adds no spectrogram node, so `noLearnedBelowSpec` passes
through it. -/
theorem noLBS_bottleneckV (b : BottleneckM) (x : T) :
    (BottleneckM.forwardV b x).noLearnedBelowSpec = x.noLearnedBelowSpec := by
  unfold BottleneckM.forwardV
  cases b.avgpool <;> cases b.downsample <;> simp [T.noLearnedBelowSpec]

/-- `noLearnedBelowSpec` passes through a stack of Bottlenecks. -/
theorem noLBS_applyBlocks (bs : List BottleneckM) (x : T) :
    (applyBlocks bs x).noLearnedBelowSpec = x.noLearnedBelowSpec := by
  induction bs generalizing x with
  | nil => rfl
  | cons b bs ih =>
    rw [show applyBlocks (b :: bs) x = applyBlocks bs (BottleneckM.forwardV b x) from rfl,
      ih, noLBS_bottleneckV]

/-- `noLearnedBelowSpec` passes through the attention pooling node. -/
theorem noLBS_attnPool (a b h o : Nat) (t : T) :
    (T.attnPool a b h o t).noLearnedBelowSpec = t.noLearnedBelowSpec := rfl

/-- `noLearnedBelowSpec` passes through the average-pooling head. -/
theorem noLBS_avgHead (t : T) :
    (T.linear 0 512 256 (T.squeeze (T.adaptiveAvgPool2d 1 1 t))).noLearnedBelowSpec =
      t.noLearnedBelowSpec := rfl

/-- `noLearnedBelowSpec` passes through the stem. -/
theorem noLBS_stemV (c : Config) (x : T) :
    (ModifiedResNet.stemV c x).noLearnedBelowSpec = x.noLearnedBelowSpec := rfl

/-- Claim C1: every variant's forward pass follows the common pipeline
shape — it first applies the time-frequency transform (MelSpectrogram
followed by AmplitudeToDB) to the raw waveform, then the rest of the
network: the forward factors through the transform applied to the raw
input, every spectrogram node sits above a learned-layer-free
subexpression (no learned layer before the transforms), and a learned
feature extractor does occur afterwards. -/
theorem c1_pipeline_shape :
    (∀ c : Config, ∃ rest : T → T,
      (∀ x, ModifiedResNet.forwardV c x =
        rest (T.ampToDB (ModifiedResNet.mel_setup c).amplitude_to_db
          (T.melSpec (ModifiedResNet.mel_setup c).spec x))) ∧
      (ModifiedResNet.forwardV c T.input).noLearnedBelowSpec = true ∧
      (ModifiedResNet.forwardV c T.input).hasLearned = true) ∧
    (∀ c : Config, ∃ rest : T → T,
      (∀ x, AudioCNN.forwardV c x =
        rest (T.ampToDB (AudioCNN.setup_mel_spectrogram c).amplitude_to_db
          (T.melSpec (AudioCNN.setup_mel_spectrogram c).spec x))) ∧
      (AudioCNN.forwardV c T.input).noLearnedBelowSpec = true ∧
      (AudioCNN.forwardV c T.input).hasLearned = true) ∧
    (∀ c : Config, ∃ rest : T → T,
      (∀ x, AudioEfficientNet.forwardV c x =
        rest (T.ampToDB (AudioEfficientNet.setup_mel_spectrogram c).amplitude_to_db
          (T.melSpec (AudioEfficientNet.setup_mel_spectrogram c).spec x))) ∧
      (AudioEfficientNet.forwardV c T.input).noLearnedBelowSpec = true ∧
      (AudioEfficientNet.forwardV c T.input).hasLearned = true) ∧
    (∀ c : Config, ∃ rest : T → T,
      (∀ x, AudioTransformer.forwardV c x =
        rest (T.ampToDB (AudioTransformer.setup_mel_spectrogram c).amplitude_to_db
          (T.melSpec (AudioTransformer.setup_mel_spectrogram c).spec x))) ∧
      (AudioTransformer.forwardV c T.input).noLearnedBelowSpec = true ∧
      (AudioTransformer.forwardV c T.input).hasLearned = true) ∧
    (∀ c : Config,
      (∀ eps, ∃ rest : T → T,
        ∀ x, AudioAutoEncoder.forwardV c x eps =
          rest (T.ampToDB (AudioAutoEncoder.setup_mel_spectrogram c).amplitude_to_db
            (T.melSpec (AudioAutoEncoder.setup_mel_spectrogram c).spec x))) ∧
      (AudioAutoEncoder.forwardV c T.input (T.noise 0)).noLearnedBelowSpec = true ∧
      (AudioAutoEncoder.forwardV c T.input (T.noise 0)).hasLearned = true) := by
  refine ⟨?_, ?_, ?_, ?_, ?_⟩
  · intro c
    refine ⟨fun t =>
      (fun y =>
        if c.pooling = "attention" then
          T.attnPool (ModifiedResNet.fc_dim c) (c.conv_out_channels * 32) 8 c.hidden_size y
        else if c.pooling = "average" then
          T.linear 0 512 256 (T.squeeze (T.adaptiveAvgPool2d 1 1 y))
        else y)
      (applyBlocks (ModifiedResNet.layersM c).2.2.2
        (applyBlocks (ModifiedResNet.layersM c).2.2.1
          (applyBlocks (ModifiedResNet.layersM c).2.1
            (applyBlocks (ModifiedResNet.layersM c).1
              (ModifiedResNet.stemV c (T.typeCast (T.unsqueeze 1 t))))))),
      fun x => rfl, ?_, ?_⟩
    · by_cases h1 : c.pooling = "attention"
      · simp only [ModifiedResNet.forwardV]
        rw [if_pos h1]
        rw [noLBS_attnPool, noLBS_applyBlocks, noLBS_applyBlocks, noLBS_applyBlocks,
          noLBS_applyBlocks, noLBS_stemV]
        rfl
      · by_cases h2 : c.pooling = "average"
        · simp only [ModifiedResNet.forwardV]
          rw [if_neg h1, if_pos h2]
          rw [noLBS_avgHead, noLBS_applyBlocks, noLBS_applyBlocks, noLBS_applyBlocks,
            noLBS_applyBlocks, noLBS_stemV]
          rfl
        · simp only [ModifiedResNet.forwardV]
          rw [if_neg h1, if_neg h2]
          rw [noLBS_applyBlocks, noLBS_applyBlocks, noLBS_applyBlocks,
            noLBS_applyBlocks, noLBS_stemV]
          rfl
    · by_cases h1 : c.pooling = "attention"
      · simp only [ModifiedResNet.forwardV]
        rw [if_pos h1]
        rfl
      · by_cases h2 : c.pooling = "average"
        · simp only [ModifiedResNet.forwardV]
          rw [if_neg h1, if_pos h2]
          rfl
        · simp only [ModifiedResNet.forwardV]
          rw [if_neg h1, if_neg h2]
          exact hasLearned_applyBlocks _ _ (hasLearned_applyBlocks _ _
            (hasLearned_applyBlocks _ _ (hasLearned_applyBlocks _ _ rfl)))
  · intro c
    exact ⟨fun t =>
      T.linear 1 512 c.hidden_size (T.flatten 1 (T.adaptiveAvgPool2d 1 1
        (AudioCNN.conv_block 256 512 3 2 1 (AudioCNN.conv_block 128 256 3 2 1
          (AudioCNN.conv_block 64 128 3 2 1 (AudioCNN.conv_block 1 64 3 1 1
            (T.unsqueeze 1 t))))))),
      fun x => rfl, rfl, rfl⟩
  · intro c
    exact ⟨fun t => T.efficientNet c.hidden_size (T.unsqueeze 1 t),
      fun x => rfl, rfl, rfl⟩
  · intro c
    exact ⟨fun t =>
      T.linear 2 (c.get hiddenSizeKey 512) (c.get outputSizeKey 256)
        (T.meanDim 1 (T.transformerEncoder (c.get numLayersKey 6)
          (c.get numHeadsKey 8) (c.get dimFeedforwardKey 2048)
          (PositionalEncoding.forwardV
            (T.reshapeSeq (c.get hiddenSizeKey 512) (T.unsqueeze 1 t))))),
      fun x => rfl, rfl, rfl⟩
  · intro c
    exact ⟨fun eps => ⟨fun t =>
      AudioAutoEncoder.reparameterizeV
        (T.linear 6 (c.get latentDimKey 256) (c.get outputSizeKey 256)
          (AudioAutoEncoder.encoder_linearV c (T.reshapeFlat (T.unsqueeze 1 t))))
        (T.linear 7 (c.get latentDimKey 256) (c.get outputSizeKey 256)
          (AudioAutoEncoder.encoder_linearV c (T.reshapeFlat (T.unsqueeze 1 t))))
        eps,
      fun x => rfl⟩, rfl, rfl⟩

/-- Inversion for `Option` bind. -/
theorem optionBind_eq_some {α β : Type} (x : Option α) (f : α → Option β) (b : β) :
    x >>= f = some b ↔ ∃ a, x = some a ∧ f a = some b := by
  cases x <;> simp

/-- A successful `linearShape` ends in `out_features`. -/
theorem linearShape_getLast (i o : Nat) (s out : Shape)
    (h : linearShape i o s = some out) : out.getLast? = some o := by
  unfold linearShape at h
  split at h
  · split_ifs at h
    cases h
    simp
  · cases h

/-- A successful `attnPoolShape` ends in `output_dim`. -/
theorem attnPoolShape_getLast (sp e nh o : Nat) (s out : Shape)
    (h : attnPoolShape sp e nh o s = some out) : out.getLast? = some o := by
  unfold attnPoolShape at h
  split at h
  · split_ifs at h
    cases h
    rfl
  · cases h

/-- `melSpecShape` preserves the batch axis. -/
theorem melSpecShape_head (a : MelSpectrogramArgs) (s out : Shape)
    (h : melSpecShape a s = some out) : out.head? = s.head? := by
  unfold melSpecShape at h
  split at h
  · split_ifs at h
    cases h
    rfl
  · cases h

/-- `unsqueeze1Shape` preserves the batch axis. -/
theorem unsqueeze1Shape_head (s out : Shape)
    (h : unsqueeze1Shape s = some out) : out.head? = s.head? := by
  unfold unsqueeze1Shape at h
  split at h
  · cases h
    rfl
  · cases h

/-- `conv2dShape` preserves the batch axis. -/
theorem conv2dShape_head (a : Conv2dArgs) (s out : Shape)
    (h : conv2dShape a s = some out) : out.head? = s.head? := by
  unfold conv2dShape at h
  split at h
  · split_ifs at h
    cases h
    rfl
  · cases h

/-- `batchNorm2dShape` preserves the batch axis. -/
theorem batchNorm2dShape_head (n : Nat) (s out : Shape)
    (h : batchNorm2dShape n s = some out) : out.head? = s.head? := by
  unfold batchNorm2dShape at h
  split at h
  · split_ifs at h
    cases h
    rfl
  · cases h

/-- `avgPool2dShape` preserves the batch axis. -/
theorem avgPool2dShape_head (k : Nat) (s out : Shape)
    (h : avgPool2dShape k s = some out) : out.head? = s.head? := by
  unfold avgPool2dShape at h
  split at h
  · split_ifs at h
    cases h
    rfl
  · cases h

/-- `adaptiveAvgPool2dShape` preserves the batch axis. -/
theorem adaptiveAvgPool2dShape_head (oh ow : Nat) (s out : Shape)
    (h : adaptiveAvgPool2dShape oh ow s = some out) : out.head? = s.head? := by
  unfold adaptiveAvgPool2dShape at h
  split at h
  · split_ifs at h
    cases h
    rfl
  · cases h

/-- A Bottleneck block preserves the batch axis. -/
theorem BottleneckM_shapeF_head (bk : BottleneckM) (s out : Shape)
    (h : bk.shapeF s = some out) : out.head? = s.head? := by
  unfold BottleneckM.shapeF at h
  simp only [bind, optionBind_eq_some, Option.bind_eq_some] at h
  obtain ⟨o1, h1, o2, h2, o3, h3, o4, h4, o5, h5, o6, h6, o7, h7, idn, h8, h9⟩ := h
  split at h9
  · cases h9
    calc out.head? = o6.head? := batchNorm2dShape_head _ _ _ h7
      _ = o5.head? := conv2dShape_head _ _ _ h6
      _ = o4.head? := by
          cases hv : bk.avgpool <;> rw [hv] at h5
          · cases h5; rfl
          · exact avgPool2dShape_head _ _ _ h5
      _ = o3.head? := batchNorm2dShape_head _ _ _ h4
      _ = o2.head? := conv2dShape_head _ _ _ h3
      _ = o1.head? := batchNorm2dShape_head _ _ _ h2
      _ = s.head? := conv2dShape_head _ _ _ h1
  · cases h9

/-- A stack of Bottlenecks preserves the batch axis. -/
theorem blocksShapeF_head (bs : List BottleneckM) (s out : Shape)
    (h : blocksShapeF bs s = some out) : out.head? = s.head? := by
  induction bs generalizing s with
  | nil =>
    cases h
    rfl
  | cons b bs ih =>
    rw [show blocksShapeF (b :: bs) s =
      (BottleneckM.shapeF b s) >>= (fun a => blocksShapeF bs a) from rfl] at h
    obtain ⟨a, ha, hrest⟩ := (optionBind_eq_some _ _ _).mp h
    exact (ih _ hrest).trans (BottleneckM_shapeF_head b s a ha)

/-- The stem fold preserves the batch axis. -/
theorem stemFold_head (c : Config) (s out : Shape)
    (h : (ModifiedResNet.stem_pairs c).foldlM
      (fun a p => (conv2dShape p.1 a).bind (batchNorm2dShape p.2)) s = some out) :
    out.head? = s.head? := by
  simp only [ModifiedResNet.stem_pairs, List.foldlM, bind, pure, Option.bind_eq_some,
    Option.some.injEq] at h
  obtain ⟨b1, ⟨c1, hc1, hd1⟩, b2, ⟨c2, hc2, hd2⟩, b3, ⟨c3, hc3, hd3⟩, hout⟩ := h
  subst hout
  calc b3.head? = c3.head? := batchNorm2dShape_head _ _ _ hd3
    _ = b2.head? := conv2dShape_head _ _ _ hc3
    _ = c2.head? := batchNorm2dShape_head _ _ _ hd2
    _ = b1.head? := conv2dShape_head _ _ _ hc2
    _ = c1.head? := batchNorm2dShape_head _ _ _ hd1
    _ = s.head? := conv2dShape_head _ _ _ hc1

/-- The residual backbone preserves the batch axis. -/
theorem backboneShape_head (c : Config) (s out : Shape)
    (h : ModifiedResNet.backboneShape c s = some out) : out.head? = s.head? := by
  unfold ModifiedResNet.backboneShape at h
  simp only [bind, ampToDBShape, optionBind_eq_some, Option.bind_eq_some, pure,
    Option.some.injEq] at h
  obtain ⟨a1, h1, a2, h2, a3, h3, a4, h4, a5, h5, a6, h6, a7, h7, a8, h8a, h8b⟩ := h
  subst h2
  calc out.head?
      = a8.head? := blocksShapeF_head _ _ _ h8b
    _ = a7.head? := blocksShapeF_head _ _ _ h8a
    _ = a6.head? := blocksShapeF_head _ _ _ h7
    _ = a5.head? := blocksShapeF_head _ _ _ h6
    _ = a4.head? := avgPool2dShape_head _ _ _ h5
    _ = a3.head? := stemFold_head c _ _ h4
    _ = a1.head? := unsqueeze1Shape_head _ _ h3
    _ = s.head? := melSpecShape_head _ _ _ h1

/-- Claim C2: the four encoder variants are interchangeable: for every
admissible batch of waveforms `[B, L]`, each forward's output shape ends
in an embedding dimension determined by the configuration alone —
`hidden_size` for AudioCNN, `hidden_size` (attention pooling) or the
hard-coded 256 (average pooling) for ModifiedResNet, and
`output_size` (default 256) for AudioTransformer and AudioAutoEncoder —
independent of the waveform length `L`. -/
theorem c2_fixed_embedding_size :
    (∀ (c : Config) (B L : Nat) (out : Shape),
      AudioCNN.shapeF c [B, L] = some out → out.getLast? = some c.hidden_size) ∧
    (∀ (c : Config) (B L : Nat) (out : Shape),
      c.pooling = "attention" ∨ c.pooling = "average" →
      ModifiedResNet.shapeF c [B, L] = some out →
        out.getLast? = some (if c.pooling = "attention" then c.hidden_size else 256)) ∧
    (∀ (c : Config) (B L : Nat) (out : Shape),
      AudioTransformer.shapeF c [B, L] = some out →
        out.getLast? = some (c.get outputSizeKey 256)) ∧
    (∀ (c : Config) (B L : Nat) (out : Shape),
      AudioAutoEncoder.shapeF c [B, L] = some out →
        out.getLast? = some (c.get outputSizeKey 256)) := by
  refine ⟨?_, ?_, ?_, ?_⟩
  · intro c B L out h
    unfold AudioCNN.shapeF at h
    simp only [bind, ampToDBShape, AudioCNN.convBlockShape, optionBind_eq_some,
      Option.bind_eq_some, pure, Option.some.injEq] at h
    obtain ⟨a1, h1, a2, h2, a3, h3, a4, ⟨b4, hb4, hc4⟩, a5, ⟨b5, hb5, hc5⟩,
      a6, ⟨b6, hb6, hc6⟩, a7, ⟨b7, hb7, hc7⟩, a8, h8, a9, h9, hlast⟩ := h
    exact linearShape_getLast _ _ _ _ hlast
  · intro c B L out hp h
    unfold ModifiedResNet.shapeF at h
    obtain ⟨s', hb, hpool⟩ := (Option.bind_eq_some).mp h
    rcases hp with hatt | havg
    · unfold ModifiedResNet.poolShape at hpool
      rw [if_pos hatt] at hpool
      rw [if_pos hatt]
      exact attnPoolShape_getLast _ _ _ _ _ _ hpool
    · have hne : ¬ c.pooling = "attention" := by
        rw [havg]
        decide
      unfold ModifiedResNet.poolShape at hpool
      rw [if_neg hne, if_pos havg] at hpool
      rw [if_neg hne]
      simp only [bind, optionBind_eq_some, Option.bind_eq_some, squeezeShape,
        Option.some.injEq] at hpool
      obtain ⟨x1, hx1, x2, hx2, hlin⟩ := hpool
      exact linearShape_getLast _ _ _ _ hlin
  · intro c B L out h
    unfold AudioTransformer.shapeF AudioTransformer.postShape at h
    simp only [bind, optionBind_eq_some, Option.bind_eq_some] at h
    obtain ⟨r, hr, r2, hr2, x, hx, x2, hx2, hlin⟩ := h
    exact linearShape_getLast _ _ _ _ hlin
  · intro c B L out h
    unfold AudioAutoEncoder.shapeF at h
    simp only [bind, ampToDBShape, optionBind_eq_some, Option.bind_eq_some, pure,
      Option.some.injEq] at h
    obtain ⟨a1, h1, a2, h2, a3, h3, a4, h4, a5, h5, enc, henc, mu, hmu, lv, hlv, hif⟩ := h
    split at hif
    · cases hif
      exact linearShape_getLast _ _ _ _ hmu
    · cases hif

/-- Witness for C2 at concrete configurations and waveform lengths. -/
theorem c2_fixed_embedding_size_witness :
    (AudioCNN.shapeF cfgCNN [2, 31] = some [2, 128] ∧
      ([2, 128] : Shape).getLast? = some cfgCNN.hidden_size) ∧
    (cfgAttention.pooling = "attention" ∧
      ModifiedResNet.shapeF cfgAttention [2, 31] = some [2, 128] ∧
      ([2, 128] : Shape).getLast? =
        some (if cfgAttention.pooling = "attention" then cfgAttention.hidden_size else 256)) ∧
    (AudioTransformer.shapeF cfgTransformer [2, 3] = some [2, 3] ∧
      ([2, 3] : Shape).getLast? = some (cfgTransformer.get outputSizeKey 256)) ∧
    (AudioAutoEncoder.shapeF cfgAutoEnc [2, 1835] = some [2, 256] ∧
      ([2, 256] : Shape).getLast? = some (cfgAutoEnc.get outputSizeKey 256)) :=
  ⟨⟨by decide, c2_fixed_embedding_size.1 cfgCNN 2 31 [2, 128] (by decide)⟩,
   ⟨rfl, by decide,
    c2_fixed_embedding_size.2.1 cfgAttention 2 31 [2, 128] (Or.inl rfl) (by decide)⟩,
   ⟨by decide, c2_fixed_embedding_size.2.2.1 cfgTransformer 2 3 [2, 3] (by decide)⟩,
   ⟨by decide, c2_fixed_embedding_size.2.2.2 cfgAutoEnc 2 1835 [2, 256] (by decide)⟩⟩

/-- `linearShape` on a singleton shape. -/
theorem linearShape_singleton (i o d : Nat) :
    linearShape i o [d] = if d = i then some [o] else none := rfl

/-- Claim C9: with `pooling = "average"`, `ModifiedResNet.forward` sends
the pooled features through the hard-coded `Linear(512, 256)`, so the
embedding dimension is 256 whatever `config.hidden_size` is; and because
the pooled tensor is collapsed with `squeeze()`, a batch of size 1 comes
out as the bare vector `[256]`, its batch axis gone. -/
theorem c9_average_pooling_output :
    (∀ (c : Config) (B L : Nat) (out : Shape),
      c.pooling = "average" → ModifiedResNet.shapeF c [B, L] = some out →
        out.getLast? = some 256) ∧
    (∀ (c : Config) (L : Nat) (out : Shape),
      c.pooling = "average" → ModifiedResNet.shapeF c [1, L] = some out →
        out = [256]) := by
  constructor
  · intro c B L out havg h
    unfold ModifiedResNet.shapeF at h
    obtain ⟨s', hb, hpool⟩ := (Option.bind_eq_some).mp h
    have hne : ¬ c.pooling = "attention" := by
      rw [havg]
      decide
    unfold ModifiedResNet.poolShape at hpool
    rw [if_neg hne, if_pos havg] at hpool
    simp only [bind, optionBind_eq_some, Option.bind_eq_some, squeezeShape,
      Option.some.injEq] at hpool
    obtain ⟨x1, hx1, x2, hx2, hlin⟩ := hpool
    exact linearShape_getLast _ _ _ _ hlin
  · intro c L out havg h
    unfold ModifiedResNet.shapeF at h
    obtain ⟨s', hb, hpool⟩ := (Option.bind_eq_some).mp h
    have hhead : s'.head? = some 1 := backboneShape_head c _ _ hb
    have hne : ¬ c.pooling = "attention" := by
      rw [havg]
      decide
    unfold ModifiedResNet.poolShape at hpool
    rw [if_neg hne, if_pos havg] at hpool
    simp only [bind, optionBind_eq_some, Option.bind_eq_some, squeezeShape,
      Option.some.injEq] at hpool
    obtain ⟨x1, hx1, x2, hx2, hlin⟩ := hpool
    unfold adaptiveAvgPool2dShape at hx1
    split at hx1
    case _ b c2 h2 w2 =>
      split_ifs at hx1
      cases hx1
      simp only [List.head?, Option.some.injEq] at hhead
      subst hhead
      subst hx2
      have hfil : List.filter (fun d => d != 1) [1, c2, 1, 1] =
          if c2 = 1 then [] else [c2] := by
        by_cases hc2 : c2 = 1 <;> simp [hc2]
      rw [hfil] at hlin
      by_cases hc2 : c2 = 1
      · rw [if_pos hc2] at hlin
        simp [linearShape] at hlin
      · rw [if_neg hc2, linearShape_singleton] at hlin
        split_ifs at hlin with h512
        cases hlin
        rfl
    case _ => cases hx1

/-- Witness for C9 at `cfgAverage` with a batch of one waveform. -/
theorem c9_average_pooling_output_witness :
    cfgAverage.pooling = "average" ∧
    ModifiedResNet.shapeF cfgAverage [1, 31] = some [256] ∧
    ([256] : Shape).getLast? = some 256 :=
  ⟨rfl, by decide, c9_average_pooling_output.1 cfgAverage 1 31 [256] rfl (by decide)⟩

/-- The value component of the logging `PositionalEncoding` semantics is
its print-free semantics. -/
theorem forwardSh_fst (d : Nat) (s : Shape) :
    (PositionalEncoding.forwardSh d s).1 = PositionalEncoding.shapeF d s := by
  unfold PositionalEncoding.forwardSh PositionalEncoding.shapeF
  split
  · split_ifs <;> simp_all
  · rfl

/-- Claim C5: on the normal path, every `AudioTransformer.forward` call
reaching `PositionalEncoding.forward` emits exactly the two debug print
lines reporting the positional-encoding and input shapes, while the
returned value is unaffected by them: the logging run computes the same
value as the print-free semantics, and the value returned by
`PositionalEncoding.forward` is dropout of (input + pe slice). -/
theorem c5_positional_encoding_prints :
    (∀ (c : Config) (s : Shape) (x0 x1 x2 : Nat),
      AudioTransformer.preShape c s = some [x0, x1, x2] → x1 ≤ 5000 →
        (AudioTransformer.runSh c s).2 =
          [peLine1Head ++ toString [x0, x1, c.get hiddenSizeKey 512],
           peLine2Head ++ toString [x0, x1, x2]]) ∧
    (∀ (c : Config) (s : Shape),
      (AudioTransformer.runSh c s).1 = AudioTransformer.shapeF c s) ∧
    (∀ x : T, PositionalEncoding.forwardV x = T.dropout (T.add x (T.peSlice x))) := by
  refine ⟨?_, ?_, fun x => rfl⟩
  · intro c s x0 x1 x2 hpre hx1
    simp only [AudioTransformer.runSh, hpre]
    simp only [PositionalEncoding.forwardSh]
    rw [if_pos hx1]
    by_cases hd : x2 = c.get hiddenSizeKey 512
    · rw [if_pos hd]
    · rw [if_neg hd]
  · intro c s
    cases hp : AudioTransformer.preShape c s with
    | none => simp [AudioTransformer.runSh, AudioTransformer.shapeF, hp]
    | some r =>
      rcases hfs : PositionalEncoding.forwardSh (c.get hiddenSizeKey 512) r with ⟨o, logs⟩
      have hf2 : PositionalEncoding.shapeF (c.get hiddenSizeKey 512) r = o := by
        rw [← forwardSh_fst, hfs]
      cases o with
      | none => simp [AudioTransformer.runSh, AudioTransformer.shapeF, hp, hfs, hf2]
      | some r2 => simp [AudioTransformer.runSh, AudioTransformer.shapeF, hp, hfs, hf2]

/-- Witness for C5 at `cfgTransformer` on a batch of two length-3
waveforms. -/
theorem c5_positional_encoding_prints_witness :
    AudioTransformer.preShape cfgTransformer [2, 3] = some [2, 4, 4] ∧
    (4 : Nat) ≤ 5000 ∧
    (AudioTransformer.runSh cfgTransformer [2, 3]).2 =
      [peLine1Head ++ toString [2, 4, cfgTransformer.get hiddenSizeKey 512],
       peLine2Head ++ toString [2, 4, 4]] :=
  ⟨by decide, by decide,
   c5_positional_encoding_prints.1 cfgTransformer [2, 3] 2 4 4 (by decide) (by decide)⟩

/-- Witness for C4: the first block of stage 1 at `cfgAttention` is a
member of the stage and has the stage's plane width. -/
theorem c4_resnet_layer_shapes_witness :
    Bottleneck.mkM cfgAttention.conv_out_channels cfgAttention.conv_out_channels 1 ∈
      (ModifiedResNet.layersM cfgAttention).1 ∧
    (Bottleneck.mkM cfgAttention.conv_out_channels
      cfgAttention.conv_out_channels 1).planes = cfgAttention.conv_out_channels :=
  ⟨by decide, (c4_resnet_layer_shapes cfgAttention).2.1.1 _ (by decide)⟩
